import Mathlib

/-!
Shallow embedding of the DeDen payment-verification core
(`src/frontend/lib/verification.ts`, `src/frontend/lib/config.ts`).

Effectful TypeScript (Prisma reads/writes, ethers RPC calls) is modelled by
explicit environment records: the booking the database would return, the
transaction-fetch result, and success flags for the two database
transactions and the confirmation email.  Control flow — in particular the
per-log `try { ... } catch (e) { continue; }` block inside the receipt
scan — is translated literally.
-/

namespace DeDen

/-- Booking status enum (Prisma `BookingStatus`). -/
inductive BookingStatus where
  | WAITLISTED
  | PENDING
  | CONFIRMED
  | FAILED
  | EXPIRED
  | CANCELLED
deriving DecidableEq, Repr

/-- A decoded ERC-20 `Transfer(from, to, value)` event.  `value` is the
uint256 amount; the code compares its decimal string against the expected
decimal string, which for canonical non-negative integers is `Nat` equality. -/
structure TransferEvent where
  fromAddr : String
  toAddr : String
  value : Nat
deriving DecidableEq, Repr

/-- A raw receipt log.  `parsed` is the result of
`transferInterface.parseLog`: `none` when parsing throws or the event is not
a `Transfer` (both cases make the source skip to the next log). -/
structure EthLog where
  address : String
  parsed : Option TransferEvent
deriving DecidableEq, Repr

/-- Transaction receipt (the fields the verifier reads). -/
structure Receipt where
  status : Nat
  blockNumber : Nat
  logs : List EthLog
deriving DecidableEq, Repr

/-- Outcome of `provider.getTransaction` followed by `tx.wait`:
the transaction may be missing, the receipt may be missing, or a receipt
is available. -/
inductive TxFetch where
  | notFound
  | noReceipt
  | found (r : Receipt)
deriving DecidableEq, Repr

/-- The booking record together with the included user relation fields
(the subset of the Prisma schema that `verification.ts` reads or writes). -/
structure Booking where
  id : String
  bookingId : String
  userId : String
  status : BookingStatus
  paymentToken : Option String
  paymentAmount : Option String
  txHash : Option String
  chainId : Option Nat
  chain : Option String
  blockNumber : Option Nat
  senderAddress : Option String
  receiverAddress : Option String
  amountBaseUnits : Option Nat
  expiresAt : Option Nat
  userEmail : Option String
  userDisplayName : Option String
deriving DecidableEq, Repr

/-- An `activityLog` row as created by `verification.ts`; `errMsg` is the
`details.error` field of a `payment_failed` entry (absent otherwise). -/
structure ActivityLogEntry where
  userId : String
  bookingRef : String
  action : String
  entity : String
  entityId : String
  errMsg : Option String
deriving DecidableEq, Repr

/-- Token entry of `lib/config.ts` (`TokenConfig`). -/
structure TokenInfo where
  address : String
  decimals : Nat
  symbol : String
  name : String
deriving DecidableEq, Repr

/-- Chain entry of `lib/config.ts` (`ChainConfig`), restricted to the fields
the verifier reads (`name`, `chainId`, `tokens`; RPC/explorer URLs are
environment strings the core never consults). -/
structure ChainCfg where
  name : String
  chainId : Nat
  tokens : List (String × TokenInfo)
deriving DecidableEq, Repr

/-- `treasuryAddress` from `lib/config.ts`. -/
def treasuryAddress : String := "0x8895691124df317aBa77549843f257F61a7C911a"

/-- Chain 42161 of `lib/config.ts` (Arbitrum One). -/
def arbitrumOneCfg : ChainCfg where
  name := "Arbitrum One"
  chainId := 42161
  tokens :=
    [("USDC", { address := "0xaf88d065e77c8cC2239327C5EDb3A432268e5831",
                decimals := 6, symbol := "USDC", name := "USD Coin" }),
     ("USDT", { address := "0xFd086bC7CD5C481DCC9C85ebE478A1C0b69FCbb9",
                decimals := 6, symbol := "USDT", name := "Tether USD" })]

/-- Chain 56 of `lib/config.ts` (BNB Smart Chain). -/
def bnbChainCfg : ChainCfg where
  name := "BNB Smart Chain"
  chainId := 56
  tokens :=
    [("USDC", { address := "0x8AC76a51cc950d9822D68b83fE1Ad97B32Cd580d",
                decimals := 18, symbol := "USDC", name := "USD Coin" }),
     ("USDT", { address := "0x55d398326f99059fF775485246999027B3197955",
                decimals := 18, symbol := "USDT", name := "Tether USD" })]

/-- Chain 8453 of `lib/config.ts` (Base). -/
def baseCfg : ChainCfg where
  name := "Base"
  chainId := 8453
  tokens :=
    [("USDC", { address := "0x833589fCD6eDb6E08f4c7C32D4f71b54bdA02913",
                decimals := 6, symbol := "USDC", name := "USD Coin" })]

/-- Chain 5003 of `lib/config.ts` (Mantle Sepolia testnet). -/
def mantleSepoliaCfg : ChainCfg where
  name := "Mantle Sepolia"
  chainId := 5003
  tokens :=
    [("USDC", { address := "0xE4e422626a10246C8B19Bd0e0eA0535257BBF91c",
                decimals := 6, symbol := "USDC", name := "USD Coin" }),
     ("USDT", { address := "0xbd47D8dF6964ef6042f40900ea8274aD88c796d9",
                decimals := 6, symbol := "USDT", name := "Tether USD" })]

/-- The static `chainConfig` map of `lib/config.ts`. -/
def chainConfig (cid : Nat) : Option ChainCfg :=
  if cid = 42161 then some arbitrumOneCfg
  else if cid = 56 then some bnbChainCfg
  else if cid = 8453 then some baseCfg
  else if cid = 5003 then some mantleSepoliaCfg
  else none

/-- `REQUIRED_CONFIRMATIONS` from `verification.ts`; passed to `tx.wait`,
whose success is modelled by `TxFetch.found`. -/
def REQUIRED_CONFIRMATIONS : Nat := 3

/-- JS `String.prototype.toLowerCase` on the ASCII hex addresses in play. -/
def lowerStr (s : String) : String := ⟨s.data.map Char.toLower⟩

/-- Numeric value of a list of decimal digit characters. -/
def digitsVal (l : List Char) : Nat :=
  l.foldl (fun n c => n * 10 + (c.toNat - 48)) 0

/-- Split a character list at dots (the decimal-point split ethers performs
on the amount string). -/
def splitOnDotAux (acc : List Char) : List Char → List (List Char)
  | [] => [acc.reverse]
  | c :: rest =>
      if c = '.' then acc.reverse :: splitOnDotAux [] rest
      else splitOnDotAux (c :: acc) rest

/-- Decimal-point split of a string. -/
def splitOnDot (s : String) : List (List Char) := splitOnDotAux [] s.data

/-- `ethers.parseUnits(s, decimals)` for a non-negative decimal string
(the only shape `paymentAmount.toString()` can produce here): scale by
`10 ^ decimals`; fail (ethers throws) when the string is malformed or
carries more fractional digits than `decimals`. -/
def parseUnits (s : String) (decimals : Nat) : Option Nat :=
  match splitOnDot s with
  | [ip] =>
      if ip.all Char.isDigit && !ip.isEmpty then
        some (digitsVal ip * 10 ^ decimals)
      else none
  | [ip, fp] =>
      if ip.all Char.isDigit && !ip.isEmpty &&
         fp.all Char.isDigit && !fp.isEmpty &&
         decide (fp.length ≤ decimals) then
        some (digitsVal ip * 10 ^ decimals +
              digitsVal fp * 10 ^ (decimals - fp.length))
      else none
  | _ => none

/-- Result of the receipt-log scan loop of `verifyPayment`:
`committed ev` — a fully matching transfer was found and the CONFIRMED
database transaction succeeded (the loop `break`s);
`silent` — `paymentFound` ended `true` but no commit succeeded (the commit
threw and was caught by the per-log `catch`, which `continue`s);
`noneFound` — `paymentFound` ended `false`. -/
inductive ScanResult where
  | committed (ev : TransferEvent)
  | silent
  | noneFound
deriving DecidableEq, Repr

/-- The `for (const log of receipt.logs)` loop of `verifyPayment`.
Everything from `parseLog` up to (and including) the CONFIRMED database
transaction sits inside `try { ... } catch (e) { continue; }`, so the
`Amount mismatch` throw and a failed commit both fall through to the next
log; the `found` parameter carries `paymentFound` across iterations. -/
def scanLogs (tokenAddr : String) (expected : Nat) (confirmOk : Bool) :
    List EthLog → Bool → ScanResult
  | [], found => if found then .silent else .noneFound
  | l :: rest, found =>
      if lowerStr l.address ≠ lowerStr tokenAddr then
        scanLogs tokenAddr expected confirmOk rest found
      else
        match l.parsed with
        | none => scanLogs tokenAddr expected confirmOk rest found
        | some ev =>
            if lowerStr ev.toAddr ≠ lowerStr treasuryAddress then
              scanLogs tokenAddr expected confirmOk rest found
            else if ev.value ≠ expected then
              scanLogs tokenAddr expected confirmOk rest found
            else if confirmOk then .committed ev
            else scanLogs tokenAddr expected confirmOk rest true

/-- The effectful surroundings of one `verifyPayment` call: the booking the
`findUnique` returns, the chain fetch result, and whether each database
transaction / the email send succeeds when attempted. -/
structure VerifyEnv where
  booking : Option Booking
  tx : TxFetch
  confirmCommitOk : Bool
  failedCommitOk : Bool
  emailOk : Bool
deriving DecidableEq, Repr

/-- Whether a call returned normally or threw. -/
inductive Outcome where
  | ok
  | raised (msg : String)
deriving DecidableEq, Repr

/-- Observable result of a `verifyPayment` call: outcome, final booking row,
activity-log rows appended, and emails sent. -/
structure VerifyResult where
  outcome : Outcome
  booking : Option Booking
  logs : List ActivityLogEntry
  emailsSent : Nat
deriving DecidableEq, Repr

/-- The `db.booking.update` data of the CONFIRMED branch. -/
def setConfirmed (b : Booking) (txh chainName : String) (cid bn : Nat)
    (sender receiver : String) (v : Nat) : Booking :=
  { b with status := .CONFIRMED, txHash := some txh, chain := some chainName,
           chainId := some cid, blockNumber := some bn,
           senderAddress := some sender, receiverAddress := some receiver,
           amountBaseUnits := some v }

/-- The `db.booking.update` data of the FAILED branch (top-level catch). -/
def setFailed (b : Booking) (txh : String) (cid : Nat) : Booking :=
  { b with status := .FAILED, txHash := some txh, chainId := some cid }

/-- The `payment_confirmed` activity-log row. -/
def confirmedEntry (b : Booking) : ActivityLogEntry :=
  { userId := b.userId, bookingRef := b.id, action := "payment_confirmed",
    entity := "booking", entityId := b.id, errMsg := none }

/-- The `payment_failed` activity-log row carrying the error message. -/
def failedEntry (b : Booking) (m : String) : ActivityLogEntry :=
  { userId := b.userId, bookingRef := b.id, action := "payment_failed",
    entity := "booking", entityId := b.id, errMsg := some m }

/-- The top-level `catch` of `verifyPayment` with the booking loaded:
attempt the atomic FAILED transaction (update + `payment_failed` entry);
if that transaction itself throws, only log (`dbError` is swallowed);
either way re-throw the original error `m`. -/
def failWith (env : VerifyEnv) (b : Booking) (txh : String) (cid : Nat)
    (m : String) : VerifyResult :=
  if env.failedCommitOk then
    { outcome := .raised m, booking := some (setFailed b txh cid),
      logs := [failedEntry b m], emailsSent := 0 }
  else
    { outcome := .raised m, booking := some b, logs := [], emailsSent := 0 }

/-- `verifyPayment(bookingId, txHash, chainId)` of `verification.ts`,
step by step in source order: load booking (absent → throw with no state
change); status guard (non-PENDING → plain return); payment-intent guard;
chain/token config lookup; expected base-unit amount; transaction fetch and
receipt wait; revert check; the log scan (`scanLogs`); then either the
CONFIRMED commit + best-effort email, the silent return when `paymentFound`
is set but the commit was swallowed, or the `No valid ERC-20 Transfer`
error — with every thrown error routed through the top-level catch
(`failWith`). -/
def verifyPayment (env : VerifyEnv) (bookingId txHash : String)
    (chainId : Nat) : VerifyResult :=
  match env.booking with
  | none =>
      { outcome := .raised ("Booking " ++ bookingId ++ " not found"),
        booking := none, logs := [], emailsSent := 0 }
  | some b =>
      if b.status = BookingStatus.PENDING then
        match b.paymentToken, b.paymentAmount with
        | some tok, some amt =>
            if tok = "" ∨ amt = "0" then
              failWith env b txHash chainId
                "Booking does not have payment details set"
            else
              match chainConfig chainId with
              | none =>
                  failWith env b txHash chainId
                    ("Invalid config for chain " ++ toString chainId ++
                     " or currency " ++ tok)
              | some cfg =>
                  match cfg.tokens.lookup tok with
                  | none =>
                      failWith env b txHash chainId
                        ("Invalid config for chain " ++ toString chainId ++
                         " or currency " ++ tok)
                  | some ti =>
                      match parseUnits amt ti.decimals with
                      | none =>
                          failWith env b txHash chainId "invalid decimal value"
                      | some expected =>
                          match env.tx with
                          | .notFound =>
                              failWith env b txHash chainId
                                "Transaction not found (yet)."
                          | .noReceipt =>
                              failWith env b txHash chainId
                                "Transaction receipt not found."
                          | .found r =>
                              if r.status = 0 then
                                failWith env b txHash chainId
                                  "Transaction failed (reverted on-chain)."
                              else
                                match scanLogs ti.address expected
                                    env.confirmCommitOk r.logs false with
                                | .committed ev =>
                                    { outcome := .ok,
                                      booking := some (setConfirmed b txHash
                                        cfg.name chainId r.blockNumber
                                        ev.fromAddr ev.toAddr ev.value),
                                      logs := [confirmedEntry b],
                                      emailsSent :=
                                        if b.userEmail.isSome && env.emailOk
                                        then 1 else 0 }
                                | .silent =>
                                    { outcome := .ok, booking := some b,
                                      logs := [], emailsSent := 0 }
                                | .noneFound =>
                                    failWith env b txHash chainId
                                      "No valid ERC-20 Transfer event found in transaction."
        | _, _ =>
            failWith env b txHash chainId
              "Booking does not have payment details set"
      else
        { outcome := .ok, booking := some b, logs := [], emailsSent := 0 }

/-- `{ ...b, status: EXPIRED }` — the expiry sweep's booking update. -/
def setExpired (b : Booking) : Booking := { b with status := .EXPIRED }

/-- The `booking_expired` activity-log row. -/
def expiredEntry (b : Booking) : ActivityLogEntry :=
  { userId := b.userId, bookingRef := b.id, action := "booking_expired",
    entity := "booking", entityId := b.id, errMsg := none }

/-- Prisma `update where id = i` on a table whose `id` column is unique:
apply `f` to the row(s) with that id. -/
def updateById (db : List Booking) (i : String) (f : Booking → Booking) :
    List Booking :=
  db.map (fun x => if x.id = i then f x else x)

/-- The `findMany` filter of `checkExpiredBookings`:
`status = PENDING ∧ expiresAt < now` (a null `expiresAt` never satisfies the
`lt` filter). -/
def isExpiredPending (now : Nat) (b : Booking) : Bool :=
  if b.status = BookingStatus.PENDING then
    match b.expiresAt with
    | some e => decide (e < now)
    | none => false
  else false

/-- The `for (const booking of expiredBookings)` loop of
`checkExpiredBookings`: one atomic transaction per selected booking
(status update + `booking_expired` entry).  `txOk` says whether the
transaction for a given booking id succeeds; a failing transaction throws
out of the loop (there is no per-booking catch), so the remaining selected
bookings are not visited.  Returns the updated table, the entries appended,
and whether the loop ran to completion. -/
def sweepLoop (txOk : String → Bool) (db : List Booking)
    (acc : List ActivityLogEntry) :
    List Booking → List Booking × List ActivityLogEntry × Bool
  | [] => (db, acc, true)
  | b :: rest =>
      if txOk b.id then
        sweepLoop txOk (updateById db b.id setExpired)
          (acc ++ [expiredEntry b]) rest
      else (db, acc, false)

/-- Observable result of a `checkExpiredBookings` call. -/
structure SweepResult where
  outcome : Outcome
  bookings : List Booking
  logs : List ActivityLogEntry
  count : Option Nat
deriving DecidableEq, Repr

/-- `checkExpiredBookings()` of `verification.ts`: select the expired
PENDING bookings, transition them one by one, return their count; any error
in a per-booking transaction reaches the top-level catch, which logs and
re-throws (no count is returned and the loop is aborted). -/
def checkExpiredBookings (now : Nat) (txOk : String → Bool)
    (db : List Booking) : SweepResult :=
  match sweepLoop txOk db [] (db.filter (isExpiredPending now)) with
  | (db2, entries, true) =>
      { outcome := .ok, bookings := db2, logs := entries,
        count := some (db.filter (isExpiredPending now)).length }
  | (db2, entries, false) =>
      { outcome := .raised "expiry transition failed", bookings := db2,
        logs := entries, count := none }

/-- Observable result of a `retryFailedVerification` call. -/
structure RetryResult where
  outcome : Outcome
  booking : Option Booking
  logs : List ActivityLogEntry
deriving DecidableEq, Repr

/-- `retryFailedVerification(bookingId)` of `verification.ts`: load the
booking (absent → throw); throw if status ≠ FAILED; throw if `txHash` or
`chainId` is missing (JS falsy: null, empty string, zero); otherwise reset
status to PENDING in a single update and synchronously call `verifyPayment`
with the stored `txHash`/`chainId` — the reset booking is what that call's
own `findUnique` then sees — propagating whatever it throws. -/
def retryFailedVerification (env : VerifyEnv) (bookingId : String) :
    RetryResult :=
  match env.booking with
  | none =>
      { outcome := .raised ("Booking " ++ bookingId ++ " not found"),
        booking := none, logs := [] }
  | some b =>
      if b.status ≠ BookingStatus.FAILED then
        { outcome := .raised ("Booking " ++ bookingId ++
            " is not in FAILED status"),
          booking := some b, logs := [] }
      else
        match b.txHash, b.chainId with
        | some txh, some cid =>
            if txh = "" ∨ cid = 0 then
              { outcome := .raised ("Booking " ++ bookingId ++
                  " is missing transaction details"),
                booking := some b, logs := [] }
            else
              let b2 := { b with status := BookingStatus.PENDING }
              let r := verifyPayment { env with booking := some b2 }
                bookingId txh cid
              match r.outcome with
              | .ok => { outcome := .ok, booking := r.booking, logs := r.logs }
              | .raised m =>
                  { outcome := .raised m, booking := r.booking, logs := r.logs }
        | _, _ =>
            { outcome := .raised ("Booking " ++ bookingId ++
                " is missing transaction details"),
              booking := some b, logs := [] }

/-- Does the character list start with the given pattern? -/
def startsWithL : List Char → List Char → Bool
  | _, [] => true
  | [], _ :: _ => false
  | a :: as, b :: bs => (a == b) && startsWithL as bs

/-- Does the character list contain the pattern as a contiguous run? -/
def hasSubList (needle : List Char) : List Char → Bool
  | [] => needle.isEmpty
  | c :: rest => startsWithL (c :: rest) needle || hasSubList needle rest

/-- Substring test on strings (used to state what an error reason does or
does not contain). -/
def strContains (hay needle : String) : Bool :=
  hasSubList needle.data hay.data

/-- A log satisfying all three match predicates of the scan: right token
contract, treasury receiver, exact value. -/
def isFullMatch (tokenAddr : String) (e : Nat) (l : EthLog) : Bool :=
  (lowerStr l.address == lowerStr tokenAddr) &&
  (match l.parsed with
   | some ev => (lowerStr ev.toAddr == lowerStr treasuryAddress) &&
                (ev.value == e)
   | none => false)

/-! ### Concrete fixtures used by the scenario claims -/

/-- The Arbitrum One USDC contract address from `lib/config.ts`. -/
def usdcArbAddr : String := "0xaf88d065e77c8cC2239327C5EDb3A432268e5831"

/-- A PENDING booking expecting 300.0 USDC. -/
def bk1 : Booking :=
  { id := "cuid1", bookingId := "BK-1", userId := "u1",
    status := .PENDING, paymentToken := some "USDC",
    paymentAmount := some "300", txHash := none, chainId := none,
    chain := none, blockNumber := none, senderAddress := none,
    receiverAddress := none, amountBaseUnits := none, expiresAt := none,
    userEmail := some "guest@example.com", userDisplayName := some "Guest" }

/-- A Transfer of exactly 300000000 base units to the treasury. -/
def goodTransfer : TransferEvent :=
  { fromAddr := "0x1111111111111111111111111111111111111111",
    toAddr := treasuryAddress, value := 300000000 }

/-- A Transfer to the treasury of 299000000 base units (wrong amount). -/
def wrongTransfer : TransferEvent :=
  { fromAddr := "0x1111111111111111111111111111111111111111",
    toAddr := treasuryAddress, value := 299000000 }

/-- A fully matching log (USDC contract, treasury receiver, exact amount). -/
def goodLog : EthLog := { address := usdcArbAddr, parsed := some goodTransfer }

/-- A log from the USDC contract to the treasury with the wrong amount. -/
def wrongAmountLog : EthLog :=
  { address := usdcArbAddr, parsed := some wrongTransfer }

/-- Environment for the C1 failing input: the wrong-amount transfer comes
first in receipt order, a fully matching transfer second. -/
def envC1 : VerifyEnv :=
  { booking := some bk1,
    tx := .found { status := 1, blockNumber := 123,
                   logs := [wrongAmountLog, goodLog] },
    confirmCommitOk := true, failedCommitOk := true, emailOk := true }

/-- Environment for the C2 scenario: the only treasury transfer carries
value 299000000 where 300000000 is expected. -/
def envC2 : VerifyEnv :=
  { booking := some bk1,
    tx := .found { status := 1, blockNumber := 123,
                   logs := [wrongAmountLog] },
    confirmCommitOk := true, failedCommitOk := true, emailOk := true }

/-- Happy-path environment (email send succeeds). -/
def envC6T : VerifyEnv :=
  { booking := some bk1,
    tx := .found { status := 1, blockNumber := 123, logs := [goodLog] },
    confirmCommitOk := true, failedCommitOk := true, emailOk := true }

/-- Happy-path environment with a failing email send. -/
def envC6F : VerifyEnv :=
  { booking := some bk1,
    tx := .found { status := 1, blockNumber := 123, logs := [goodLog] },
    confirmCommitOk := true, failedCommitOk := true, emailOk := false }

/-- Happy-path receipt but the CONFIRMED database commit throws. -/
def envC4 : VerifyEnv :=
  { booking := some bk1,
    tx := .found { status := 1, blockNumber := 123, logs := [goodLog] },
    confirmCommitOk := false, failedCommitOk := true, emailOk := true }

/-- An already-resolved booking (prior call confirmed it). -/
def bkConfirmed : Booking := { bk1 with status := .CONFIRMED }

/-- Environment seen by a duplicate verification trigger. -/
def envC7 : VerifyEnv :=
  { booking := some bkConfirmed, tx := .notFound,
    confirmCommitOk := true, failedCommitOk := true, emailOk := true }

/-- A fully matching Transfer log that sits at the USDT contract address
while the booking expects USDC: right receiver, right amount, wrong
contract. -/
def usdtContractLog : EthLog :=
  { address := "0xFd086bC7CD5C481DCC9C85ebE478A1C0b69FCbb9",
    parsed := some goodTransfer }

/-- Environment whose receipt only contains the wrong-contract transfer. -/
def envC10 : VerifyEnv :=
  { booking := some bk1,
    tx := .found { status := 1, blockNumber := 123,
                   logs := [usdtContractLog] },
    confirmCommitOk := true, failedCommitOk := true, emailOk := true }

/-- The everywhere-true transaction-success flag (no injected faults). -/
def txOkAll : String → Bool := fun _ => true

/-- An expired PENDING booking (id e1, expiry 50). -/
def bkE1 : Booking :=
  { bk1 with id := "e1", bookingId := "BK-E1", expiresAt := some 50 }

/-- A second expired PENDING booking (id e2, expiry 60). -/
def bkE2 : Booking :=
  { bk1 with id := "e2", bookingId := "BK-E2", expiresAt := some 60 }

/-- A PENDING booking whose expiry is still in the future. -/
def bkFuture : Booking :=
  { bk1 with id := "f1", bookingId := "BK-F1", expiresAt := some 200 }

/-- A CONFIRMED booking with an old expiry (must not be swept). -/
def bkDone : Booking :=
  { bk1 with
      id := "c1", bookingId := "BK-C1",
      status := BookingStatus.CONFIRMED, expiresAt := some 10 }

/-- The transaction-success flag that fails exactly for booking id e1. -/
def txOkNotE1 : String → Bool := fun i => !(i == "e1")

/-- The single status-reset update of `retryFailedVerification`. -/
def resetToPending (b : Booking) : Booking :=
  { b with status := BookingStatus.PENDING }

/-- The environment as seen by the inner `verifyPayment` run of a retry:
the booking table now holds the given (reset) booking row. -/
def withBooking (env : VerifyEnv) (b : Booking) : VerifyEnv :=
  { env with booking := some b }

/-- A FAILED booking carrying stored transaction details. -/
def bkFailed : Booking :=
  { bk1 with
      status := BookingStatus.FAILED, txHash := some "0xAA",
      chainId := some 42161 }

/-- Environment for the retry witness: the FAILED booking is present but
the transaction is (still) not found on chain. -/
def envC8 : VerifyEnv :=
  { booking := some bkFailed, tx := .notFound,
    confirmCommitOk := true, failedCommitOk := true, emailOk := true }

/-! ### Theorems -/

/-- C1: the claim fails on the code.  For the receipt whose first
treasury-receiver transfer from the configured token contract carries the
wrong value (299000000 instead of 300000000) while a later log is a fully
matching transfer, the scan does NOT fail immediately: the `Amount mismatch`
throw is swallowed by the per-log catch, the later log matches, and the
booking ends CONFIRMED with a `payment_confirmed` entry — not FAILED. -/
theorem C1_wrong_amount_then_match_confirms :
    (verifyPayment envC1 "BK-1" "0xtx" 42161).outcome = Outcome.ok ∧
    (verifyPayment envC1 "BK-1" "0xtx" 42161).booking =
      some (setConfirmed bk1 "0xtx" "Arbitrum One" 42161 123
        goodTransfer.fromAddr goodTransfer.toAddr 300000000) ∧
    ((verifyPayment envC1 "BK-1" "0xtx" 42161).booking.map Booking.status) =
      some BookingStatus.CONFIRMED ∧
    (verifyPayment envC1 "BK-1" "0xtx" 42161).logs = [confirmedEntry bk1] := by
  decide

/-- C2: the claim fails on the code.  For the receipt whose only
treasury-receiver transfer from the configured token contract carries value
299000000 where 300000000 is expected, the booking does end FAILED with a
`payment_failed` entry, but the recorded error reason is the generic
`No valid ERC-20 Transfer event found in transaction.` — the thrown
`Amount mismatch` error is swallowed by the per-log catch, so the recorded
reason does not contain "Amount mismatch". -/
theorem C2_wrong_amount_reason_lacks_amount_mismatch :
    (verifyPayment envC2 "BK-1" "0xtx" 42161).outcome =
      Outcome.raised "No valid ERC-20 Transfer event found in transaction." ∧
    (verifyPayment envC2 "BK-1" "0xtx" 42161).booking =
      some (setFailed bk1 "0xtx" 42161) ∧
    (verifyPayment envC2 "BK-1" "0xtx" 42161).logs =
      [failedEntry bk1
        "No valid ERC-20 Transfer event found in transaction."] ∧
    strContains "No valid ERC-20 Transfer event found in transaction."
      "Amount mismatch" = false := by
  decide

/-- C6: happy path.  A PENDING booking expecting 300.0 USDC (6 decimals) on
chain 42161, with a successful receipt containing one Transfer from the
configured USDC contract to the treasury with value 300000000, ends
CONFIRMED with the payment evidence fields and exactly one
`payment_confirmed` entry; the expected amount is the parseUnits scaling of
"300" by 6 decimals; and a failing confirmation email leaves the committed
outcome, booking row and log entries unchanged. -/
theorem C6_happy_path :
    parseUnits "300" 6 = some 300000000 ∧
    (verifyPayment envC6T "BK-1" "0xabc" 42161).outcome = Outcome.ok ∧
    (verifyPayment envC6T "BK-1" "0xabc" 42161).booking =
      some (setConfirmed bk1 "0xabc" "Arbitrum One" 42161 123
        goodTransfer.fromAddr goodTransfer.toAddr 300000000) ∧
    ((verifyPayment envC6T "BK-1" "0xabc" 42161).booking.bind
      Booking.amountBaseUnits) = some 300000000 ∧
    (verifyPayment envC6T "BK-1" "0xabc" 42161).logs = [confirmedEntry bk1] ∧
    (verifyPayment envC6F "BK-1" "0xabc" 42161).outcome =
      (verifyPayment envC6T "BK-1" "0xabc" 42161).outcome ∧
    (verifyPayment envC6F "BK-1" "0xabc" 42161).booking =
      (verifyPayment envC6T "BK-1" "0xabc" 42161).booking ∧
    (verifyPayment envC6F "BK-1" "0xabc" 42161).logs =
      (verifyPayment envC6T "BK-1" "0xabc" 42161).logs := by
  decide

/-- C7: idempotent short-circuit.  For any booking whose status is not
PENDING, `verifyPayment` returns without error and without any state
change: the booking row is untouched and no activity-log entry (in
particular no second `payment_confirmed` entry) is appended. -/
theorem C7_non_pending_noop (env : VerifyEnv) (bid txh : String) (cid : Nat)
    (b : Booking) (hb : env.booking = some b)
    (hs : b.status ≠ BookingStatus.PENDING) :
    verifyPayment env bid txh cid =
      { outcome := .ok, booking := some b, logs := [], emailsSent := 0 } := by
  unfold verifyPayment
  rw [hb]
  simp only [if_neg hs]

/-- Witness for C7 at a concrete already-CONFIRMED booking. -/
theorem C7_witness :
    verifyPayment envC7 "BK-1" "0xtx" 42161 =
      { outcome := .ok, booking := some bkConfirmed, logs := [],
        emailsSent := 0 } :=
  C7_non_pending_noop envC7 "BK-1" "0xtx" 42161 bkConfirmed rfl (by decide)

/-- With a failed CONFIRMED-commit, a scan that enters an iteration with
`paymentFound = true` ends silently. -/
lemma scanLogs_false_true_silent (ta : String) (e : Nat) :
    ∀ logs, scanLogs ta e false logs true = ScanResult.silent
  | [] => rfl
  | l :: rest => by
      unfold scanLogs
      by_cases h1 : lowerStr l.address ≠ lowerStr ta
      · rw [if_pos h1]; exact scanLogs_false_true_silent ta e rest
      · rw [if_neg h1]
        cases hp : l.parsed with
        | none => exact scanLogs_false_true_silent ta e rest
        | some ev =>
            dsimp only
            by_cases h2 : lowerStr ev.toAddr ≠ lowerStr treasuryAddress
            · rw [if_pos h2]; exact scanLogs_false_true_silent ta e rest
            · rw [if_neg h2]
              by_cases h3 : ev.value ≠ e
              · rw [if_pos h3]; exact scanLogs_false_true_silent ta e rest
              · rw [if_neg h3, if_neg (by decide)]
                exact scanLogs_false_true_silent ta e rest

/-- If the head of the log list is not a full match, a full match claimed
for the whole list lies in the tail. -/
lemma mem_match_tail {ta : String} {e : Nat} {l : EthLog} {rest : List EthLog}
    (hnm : isFullMatch ta e l = false)
    (h : ∃ x ∈ l :: rest, isFullMatch ta e x = true) :
    ∃ x ∈ rest, isFullMatch ta e x = true := by
  rcases h with ⟨x, hx, hm⟩
  rcases List.mem_cons.mp hx with rfl | h2
  · rw [hnm] at hm; cases hm
  · exact ⟨x, h2, hm⟩

/-- If some log fully matches but the CONFIRMED-commit always fails, the
scan ends silently (the thrown commit error is caught per-log and the loop
finishes with `paymentFound = true`). -/
lemma scanLogs_silent_of_match (ta : String) (e : Nat) :
    ∀ logs (f : Bool), (∃ x ∈ logs, isFullMatch ta e x = true) →
      scanLogs ta e false logs f = ScanResult.silent
  | [], _, h => absurd h (by simp)
  | l :: rest, f, h => by
      unfold scanLogs
      by_cases h1 : lowerStr l.address ≠ lowerStr ta
      · rw [if_pos h1]
        refine scanLogs_silent_of_match ta e rest f (mem_match_tail ?_ h)
        simp [isFullMatch, beq_eq_false_iff_ne.mpr h1]
      · rw [if_neg h1]
        cases hp : l.parsed with
        | none =>
            refine scanLogs_silent_of_match ta e rest f (mem_match_tail ?_ h)
            simp [isFullMatch, hp]
        | some ev =>
            dsimp only
            by_cases h2 : lowerStr ev.toAddr ≠ lowerStr treasuryAddress
            · rw [if_pos h2]
              refine scanLogs_silent_of_match ta e rest f (mem_match_tail ?_ h)
              simp [isFullMatch, hp, beq_eq_false_iff_ne.mpr h2]
            · rw [if_neg h2]
              by_cases h3 : ev.value ≠ e
              · rw [if_pos h3]
                refine scanLogs_silent_of_match ta e rest f (mem_match_tail ?_ h)
                simp [isFullMatch, hp, beq_eq_false_iff_ne.mpr h3]
              · rw [if_neg h3, if_neg (by decide)]
                exact scanLogs_false_true_silent ta e rest

/-- A scan over logs none of which comes from the configured token contract
never commits: it ends `silent` or `noneFound` according to the incoming
`paymentFound` flag. -/
lemma scanLogs_addr_skip_all (ta : String) (e : Nat) (cok : Bool) :
    ∀ logs (f : Bool), (∀ l ∈ logs, lowerStr l.address ≠ lowerStr ta) →
      scanLogs ta e cok logs f =
        if f then ScanResult.silent else ScanResult.noneFound
  | [], _, _ => rfl
  | l :: rest, f, h => by
      unfold scanLogs
      rw [if_pos (h l (List.mem_cons_self l rest))]
      exact scanLogs_addr_skip_all ta e cok rest f
        (fun x hx => h x (List.mem_cons_of_mem l hx))

/-- Provenance of a committed scan: whenever the scan commits a transfer
event, that event was decoded from some log of the receipt whose contract
address case-insensitively equals the configured token address, whose
receiver case-insensitively equals the treasury, and whose value is the
exact expected amount — for every receipt, mixed or not. -/
lemma scanLogs_committed_provenance (ta : String) (e : Nat) (cok : Bool) :
    ∀ logs (f : Bool) ev,
      scanLogs ta e cok logs f = ScanResult.committed ev →
      ∃ l ∈ logs, lowerStr l.address = lowerStr ta ∧ l.parsed = some ev ∧
        lowerStr ev.toAddr = lowerStr treasuryAddress ∧ ev.value = e
  | [], f, ev, h => by cases f <;> simp [scanLogs] at h
  | l :: rest, f, ev, h => by
      unfold scanLogs at h
      by_cases h1 : lowerStr l.address ≠ lowerStr ta
      · rw [if_pos h1] at h
        obtain ⟨x, hx, hp⟩ :=
          scanLogs_committed_provenance ta e cok rest f ev h
        exact ⟨x, List.mem_cons_of_mem l hx, hp⟩
      · rw [if_neg h1] at h
        cases hp : l.parsed with
        | none =>
            rw [hp] at h
            have h' : scanLogs ta e cok rest f = ScanResult.committed ev := h
            obtain ⟨x, hx, hpr⟩ :=
              scanLogs_committed_provenance ta e cok rest f ev h'
            exact ⟨x, List.mem_cons_of_mem l hx, hpr⟩
        | some ev2 =>
            rw [hp] at h
            dsimp only at h
            by_cases h2 : lowerStr ev2.toAddr ≠ lowerStr treasuryAddress
            · rw [if_pos h2] at h
              obtain ⟨x, hx, hpr⟩ :=
                scanLogs_committed_provenance ta e cok rest f ev h
              exact ⟨x, List.mem_cons_of_mem l hx, hpr⟩
            · rw [if_neg h2] at h
              by_cases h3 : ev2.value ≠ e
              · rw [if_pos h3] at h
                obtain ⟨x, hx, hpr⟩ :=
                  scanLogs_committed_provenance ta e cok rest f ev h
                exact ⟨x, List.mem_cons_of_mem l hx, hpr⟩
              · rw [if_neg h3] at h
                cases hc : cok with
                | true =>
                    rw [hc, if_pos rfl] at h
                    injection h with he
                    subst he
                    exact ⟨l, List.mem_cons_self l rest, not_not.mp h1, hp,
                      not_not.mp h2, not_not.mp h3⟩
                | false =>
                    rw [hc, if_neg (by decide)] at h
                    rw [scanLogs_false_true_silent ta e rest] at h
                    cases h

/-- The top-level FAILED handler always re-throws the original error,
whether or not its own database transaction succeeds. -/
lemma failWith_outcome (env : VerifyEnv) (b : Booking) (txh : String)
    (cid : Nat) (m : String) :
    (failWith env b txh cid m).outcome = Outcome.raised m := by
  unfold failWith
  cases hf : env.failedCommitOk <;> simp [hf]

/-- Exhaustive case analysis of a `verifyPayment` run with the booking
loaded, quantified over the FAILED-commit flag (which the control flow
never consults): the run is a no-op/silent success, a failure routed
through `failWith` with some message, or a committed confirmation. -/
lemma verifyPayment_cases (env : VerifyEnv) (bid txh : String) (cid : Nat)
    (b : Booking) (hb : env.booking = some b) :
    (∀ f, verifyPayment { env with failedCommitOk := f } bid txh cid =
       { outcome := .ok, booking := some b, logs := [], emailsSent := 0 }) ∨
    (∃ m, ∀ f, verifyPayment { env with failedCommitOk := f } bid txh cid =
       failWith { env with failedCommitOk := f } b txh cid m) ∨
    (∃ tok amt cfg ti expected r ev,
       b.paymentToken = some tok ∧
       b.paymentAmount = some amt ∧
       chainConfig cid = some cfg ∧
       cfg.tokens.lookup tok = some ti ∧
       parseUnits amt ti.decimals = some expected ∧
       env.tx = TxFetch.found r ∧
       scanLogs ti.address expected env.confirmCommitOk r.logs false =
         ScanResult.committed ev ∧
       (∀ f, verifyPayment { env with failedCommitOk := f } bid txh cid =
         { outcome := .ok,
           booking := some (setConfirmed b txh cfg.name cid r.blockNumber
             ev.fromAddr ev.toAddr ev.value),
           logs := [confirmedEntry b],
           emailsSent :=
             if b.userEmail.isSome && env.emailOk then 1 else 0 })) := by
  by_cases hs : b.status = BookingStatus.PENDING
  case neg =>
    refine Or.inl fun f => ?_
    simp only [verifyPayment, hb, if_neg hs]
  case pos =>
    cases htok : b.paymentToken with
    | none =>
        refine Or.inr (Or.inl ⟨"Booking does not have payment details set",
          fun f => ?_⟩)
        simp only [verifyPayment, hb, if_pos hs, htok]
    | some tok =>
        cases hamt : b.paymentAmount with
        | none =>
            refine Or.inr (Or.inl ⟨"Booking does not have payment details set",
              fun f => ?_⟩)
            simp only [verifyPayment, hb, if_pos hs, htok, hamt]
        | some amt =>
            by_cases hne : tok = "" ∨ amt = "0"
            case pos =>
              refine Or.inr (Or.inl
                ⟨"Booking does not have payment details set", fun f => ?_⟩)
              simp only [verifyPayment, hb, if_pos hs, htok, hamt, if_pos hne]
            case neg =>
              cases hcfg : chainConfig cid with
              | none =>
                  refine Or.inr (Or.inl ⟨"Invalid config for chain " ++
                    toString cid ++ " or currency " ++ tok, fun f => ?_⟩)
                  simp only [verifyPayment, hb, if_pos hs, htok, hamt,
                    if_neg hne, hcfg]
              | some cfg =>
                  cases hti : cfg.tokens.lookup tok with
                  | none =>
                      refine Or.inr (Or.inl ⟨"Invalid config for chain " ++
                        toString cid ++ " or currency " ++ tok, fun f => ?_⟩)
                      simp only [verifyPayment, hb, if_pos hs, htok, hamt,
                        if_neg hne, hcfg, hti]
                  | some ti =>
                      cases hexp : parseUnits amt ti.decimals with
                      | none =>
                          refine Or.inr (Or.inl
                            ⟨"invalid decimal value", fun f => ?_⟩)
                          simp only [verifyPayment, hb, if_pos hs, htok, hamt,
                            if_neg hne, hcfg, hti, hexp]
                      | some expected =>
                          cases htx : env.tx with
                          | notFound =>
                              refine Or.inr (Or.inl
                                ⟨"Transaction not found (yet).", fun f => ?_⟩)
                              simp only [verifyPayment, hb, if_pos hs, htok,
                                hamt, if_neg hne, hcfg, hti, hexp, htx]
                          | noReceipt =>
                              refine Or.inr (Or.inl
                                ⟨"Transaction receipt not found.",
                                 fun f => ?_⟩)
                              simp only [verifyPayment, hb, if_pos hs, htok,
                                hamt, if_neg hne, hcfg, hti, hexp, htx]
                          | found r =>
                              by_cases hrs : r.status = 0
                              case pos =>
                                refine Or.inr (Or.inl
                                  ⟨"Transaction failed (reverted on-chain).",
                                   fun f => ?_⟩)
                                simp only [verifyPayment, hb, if_pos hs, htok,
                                  hamt, if_neg hne, hcfg, hti, hexp, htx,
                                  if_pos hrs]
                              case neg =>
                                cases hscan : scanLogs ti.address expected
                                    env.confirmCommitOk r.logs false with
                                | committed ev =>
                                    refine Or.inr (Or.inr ⟨tok, amt, cfg,
                                      ti, expected, r, ev, rfl, rfl, rfl,
                                      hti, hexp, rfl, hscan, fun f => ?_⟩)
                                    simp only [verifyPayment, hb, if_pos hs,
                                      htok, hamt, if_neg hne, hcfg, hti, hexp,
                                      htx, if_neg hrs, hscan]
                                | silent =>
                                    refine Or.inl fun f => ?_
                                    simp only [verifyPayment, hb, if_pos hs,
                                      htok, hamt, if_neg hne, hcfg, hti, hexp,
                                      htx, if_neg hrs, hscan]
                                | noneFound =>
                                    refine Or.inr (Or.inl
                                      ⟨"No valid ERC-20 Transfer event found in transaction.",
                                       fun f => ?_⟩)
                                    simp only [verifyPayment, hb, if_pos hs,
                                      htok, hamt, if_neg hne, hcfg, hti, hexp,
                                      htx, if_neg hrs, hscan]

/-- C5: for every verification failure raised with the booking loaded, the
top-level handler commits — atomically — booking.status = FAILED with the
supplied txHash/chainId together with a `payment_failed` entry carrying the
error reason, and re-raises the original error; and when that FAILED-path
commit itself fails, nothing is persisted and the original verification
error (not the persistence error) is still the one propagated. -/
theorem C5_failed_path_commit_and_rethrow (env : VerifyEnv)
    (bid txh : String) (cid : Nat) (b : Booking) (m : String)
    (hb : env.booking = some b)
    (hr : (verifyPayment env bid txh cid).outcome = Outcome.raised m) :
    (env.failedCommitOk = true →
       (verifyPayment env bid txh cid).booking = some (setFailed b txh cid) ∧
       (verifyPayment env bid txh cid).logs = [failedEntry b m]) ∧
    (env.failedCommitOk = false →
       (verifyPayment env bid txh cid).booking = some b ∧
       (verifyPayment env bid txh cid).logs = []) ∧
    (verifyPayment { env with failedCommitOk := false } bid txh cid).outcome =
      Outcome.raised m := by
  rcases verifyPayment_cases env bid txh cid b hb with
    hok | ⟨m', hfw⟩ |
      ⟨tok, amt, cfg, ti, expected, r, ev, _, _, _, _, _, _, _, hconf⟩
  · have h0 : verifyPayment env bid txh cid =
        { outcome := .ok, booking := some b, logs := [], emailsSent := 0 } :=
      hok env.failedCommitOk
    rw [h0] at hr
    simp at hr
  · have h1 : verifyPayment env bid txh cid = failWith env b txh cid m' :=
      hfw env.failedCommitOk
    rw [h1, failWith_outcome] at hr
    injection hr with hm
    subst hm
    refine ⟨fun hf => ?_, fun hf => ?_, ?_⟩
    · rw [h1]; simp [failWith, hf]
    · rw [h1]; simp [failWith, hf]
    · rw [hfw false, failWith_outcome]
  · have h2 : verifyPayment env bid txh cid =
        { outcome := .ok,
          booking := some (setConfirmed b txh cfg.name cid r.blockNumber
            ev.fromAddr ev.toAddr ev.value),
          logs := [confirmedEntry b],
          emailsSent := if b.userEmail.isSome && env.emailOk then 1 else 0 } :=
      hconf env.failedCommitOk
    rw [h2] at hr
    simp at hr

/-- Witness for C5 at the concrete wrong-amount scenario (which raises the
`No valid ERC-20 Transfer` error). -/
theorem C5_witness :
    (envC2.failedCommitOk = true →
       (verifyPayment envC2 "BK-1" "0xtx" 42161).booking =
         some (setFailed bk1 "0xtx" 42161) ∧
       (verifyPayment envC2 "BK-1" "0xtx" 42161).logs =
         [failedEntry bk1
           "No valid ERC-20 Transfer event found in transaction."]) ∧
    (envC2.failedCommitOk = false →
       (verifyPayment envC2 "BK-1" "0xtx" 42161).booking = some bk1 ∧
       (verifyPayment envC2 "BK-1" "0xtx" 42161).logs = []) ∧
    (verifyPayment { envC2 with failedCommitOk := false }
      "BK-1" "0xtx" 42161).outcome =
      Outcome.raised "No valid ERC-20 Transfer event found in transaction." :=
  C5_failed_path_commit_and_rethrow envC2 "BK-1" "0xtx" 42161 bk1
    "No valid ERC-20 Transfer event found in transaction." rfl (by decide)

/-- C10: token isolation as a provenance property over every receipt (mixed
or not).  Whenever a run of `verifyPayment` moves a PENDING booking to
CONFIRMED, the committed transfer was decoded from a log of the scanned
receipt whose emitting contract address case-insensitively equals the
configured token contract address for the booking's token on the claimed
chain (and whose receiver is the treasury and whose value is the exact
expected base-unit amount).  Hence a Transfer log whose address does not
case-insensitively equal that configured address can never produce the
match, regardless of its receiver or value. -/
theorem C10_token_isolation (env : VerifyEnv) (bid txh : String) (cid : Nat)
    (b : Booking)
    (hb : env.booking = some b) (hs : b.status = BookingStatus.PENDING)
    (hconf : ((verifyPayment env bid txh cid).booking.map Booking.status) =
      some BookingStatus.CONFIRMED) :
    ∃ tok amt cfg ti expected r ev,
      b.paymentToken = some tok ∧
      b.paymentAmount = some amt ∧
      chainConfig cid = some cfg ∧
      cfg.tokens.lookup tok = some ti ∧
      parseUnits amt ti.decimals = some expected ∧
      env.tx = TxFetch.found r ∧
      (verifyPayment env bid txh cid).booking =
        some (setConfirmed b txh cfg.name cid r.blockNumber
          ev.fromAddr ev.toAddr ev.value) ∧
      ∃ l ∈ r.logs,
        lowerStr l.address = lowerStr ti.address ∧
        l.parsed = some ev ∧
        lowerStr ev.toAddr = lowerStr treasuryAddress ∧
        ev.value = expected := by
  rcases verifyPayment_cases env bid txh cid b hb with
    hok | ⟨m, hfw⟩ |
    ⟨tok, amt, cfg, ti, expected, r, ev, htok, hamt, hcfg, hti, hexp, htx,
      hscan, hres⟩
  · have h0 : verifyPayment env bid txh cid =
        { outcome := .ok, booking := some b, logs := [], emailsSent := 0 } :=
      hok env.failedCommitOk
    rw [h0] at hconf
    simp [hs] at hconf
  · have h1 : verifyPayment env bid txh cid = failWith env b txh cid m :=
      hfw env.failedCommitOk
    rw [h1] at hconf
    unfold failWith at hconf
    cases hf : env.failedCommitOk <;> simp [hf, setFailed, hs] at hconf
  · have h2 : verifyPayment env bid txh cid =
        { outcome := .ok,
          booking := some (setConfirmed b txh cfg.name cid r.blockNumber
            ev.fromAddr ev.toAddr ev.value),
          logs := [confirmedEntry b],
          emailsSent := if b.userEmail.isSome && env.emailOk then 1 else 0 } :=
      hres env.failedCommitOk
    obtain ⟨l, hl, hp1, hp2, hp3, hp4⟩ :=
      scanLogs_committed_provenance ti.address expected env.confirmCommitOk
        r.logs false ev hscan
    exact ⟨tok, amt, cfg, ti, expected, r, ev, htok, hamt, hcfg, hti, hexp,
      htx, by rw [h2], l, hl, hp1, hp2, hp3, hp4⟩

/-- Witness for C10 at the mixed receipt of envC1 (a wrong-amount
treasury transfer followed by a fully matching one): the confirming
transfer is traced back to a configured-address log. -/
theorem C10_witness :
    ∃ tok amt cfg ti expected r ev,
      bk1.paymentToken = some tok ∧
      bk1.paymentAmount = some amt ∧
      chainConfig 42161 = some cfg ∧
      cfg.tokens.lookup tok = some ti ∧
      parseUnits amt ti.decimals = some expected ∧
      envC1.tx = TxFetch.found r ∧
      (verifyPayment envC1 "BK-1" "0xtx" 42161).booking =
        some (setConfirmed bk1 "0xtx" cfg.name 42161 r.blockNumber
          ev.fromAddr ev.toAddr ev.value) ∧
      ∃ l ∈ r.logs,
        lowerStr l.address = lowerStr ti.address ∧
        l.parsed = some ev ∧
        lowerStr ev.toAddr = lowerStr treasuryAddress ∧
        ev.value = expected :=
  C10_token_isolation envC1 "BK-1" "0xtx" 42161 bk1 rfl rfl (by decide)

/-- C4: when a fully matching Transfer log is present but the atomic
CONFIRMED commit itself throws, the exception is swallowed by the per-log
catch: `verifyPayment` returns without raising any error, the booking row
is left exactly as loaded (still PENDING), and no activity-log entry — in
particular no FAILED transition and no `payment_failed` entry — is
written. -/
theorem C4_swallowed_confirm_commit (env : VerifyEnv) (bid txh : String)
    (cid : Nat) (b : Booking) (tok amt : String) (cfg : ChainCfg)
    (ti : TokenInfo) (expected : Nat) (r : Receipt)
    (hb : env.booking = some b) (hs : b.status = BookingStatus.PENDING)
    (htok : b.paymentToken = some tok) (hamt : b.paymentAmount = some amt)
    (hne : ¬(tok = "" ∨ amt = "0"))
    (hcfg : chainConfig cid = some cfg)
    (hti : cfg.tokens.lookup tok = some ti)
    (hexp : parseUnits amt ti.decimals = some expected)
    (htx : env.tx = TxFetch.found r) (hrs : ¬ r.status = 0)
    (hcommit : env.confirmCommitOk = false)
    (hmatch : ∃ l ∈ r.logs, isFullMatch ti.address expected l = true) :
    verifyPayment env bid txh cid =
      { outcome := .ok, booking := some b, logs := [], emailsSent := 0 } := by
  simp only [verifyPayment, hb, if_pos hs, htok, hamt, if_neg hne, hcfg, hti,
    hexp, htx, if_neg hrs, hcommit,
    scanLogs_silent_of_match ti.address expected r.logs false hmatch]

/-- Witness for C4: happy-path receipt, failing CONFIRMED commit — the call
returns silently with the booking still PENDING and no log entries. -/
theorem C4_witness :
    verifyPayment envC4 "BK-1" "0xtx" 42161 =
      { outcome := .ok, booking := some bk1, logs := [], emailsSent := 0 } :=
  C4_swallowed_confirm_commit envC4 "BK-1" "0xtx" 42161 bk1 "USDC" "300"
    arbitrumOneCfg
    { address := "0xaf88d065e77c8cC2239327C5EDb3A432268e5831",
      decimals := 6, symbol := "USDC", name := "USD Coin" }
    300000000 { status := 1, blockNumber := 123, logs := [goodLog] }
    rfl rfl rfl rfl (by decide) (by decide) (by decide) (by decide) rfl
    (by decide) rfl (by decide)

/-- One-step reduction of the sweep loop on a cons cell. -/
lemma sweepLoop_cons (txOk : String → Bool) (db : List Booking)
    (acc : List ActivityLogEntry) (b : Booking) (rest : List Booking) :
    sweepLoop txOk db acc (b :: rest) =
      if txOk b.id then
        sweepLoop txOk (updateById db b.id setExpired)
          (acc ++ [expiredEntry b]) rest
      else (db, acc, false) := rfl

/-- A prefix of selected bookings whose transactions all succeed is
processed in order. -/
lemma sweepLoop_ok_append (txOk : String → Bool) :
    ∀ (pre db : List Booking) (acc : List ActivityLogEntry)
      (rest : List Booking), (∀ b ∈ pre, txOk b.id = true) →
      sweepLoop txOk db acc (pre ++ rest) =
        sweepLoop txOk
          (pre.foldl (fun d x => updateById d x.id setExpired) db)
          (acc ++ pre.map expiredEntry) rest
  | [], db, acc, rest, _ => by simp
  | b :: pre, db, acc, rest, h => by
      rw [List.cons_append, sweepLoop_cons,
        if_pos (h b (List.mem_cons_self b pre)),
        sweepLoop_ok_append txOk pre (updateById db b.id setExpired)
          (acc ++ [expiredEntry b]) rest
          (fun x hx => h x (List.mem_cons_of_mem b hx)),
        List.foldl_cons, List.map_cons, List.append_assoc,
        List.singleton_append]

/-- Folding the per-booking id-keyed updates of a list of bookings over the
table marks exactly the rows whose id occurs in that list as EXPIRED. -/
lemma foldl_updateById_setExpired :
    ∀ (pre db : List Booking),
      pre.foldl (fun d x => updateById d x.id setExpired) db =
        db.map (fun x =>
          if x.id ∈ pre.map Booking.id then setExpired x else x)
  | [], db => by simp
  | b :: pre, db => by
      rw [List.foldl_cons,
        foldl_updateById_setExpired pre (updateById db b.id setExpired)]
      unfold updateById
      rw [List.map_map]
      refine List.map_congr_left fun x _ => ?_
      by_cases hx : x.id = b.id <;>
        by_cases hx2 : x.id ∈ pre.map Booking.id <;>
          simp [Function.comp, hx, hx2, setExpired]

/-- With distinct row ids, a row's id occurs among the selected rows' ids
exactly when the row itself satisfies the selection predicate. -/
lemma mem_filter_ids_iff (p : Booking → Bool) (db : List Booking)
    (hnd : (db.map Booking.id).Nodup) (x : Booking) (hx : x ∈ db) :
    (x.id ∈ (db.filter p).map Booking.id) ↔ p x = true := by
  constructor
  · intro h
    rcases List.mem_map.mp h with ⟨y, hy, hyx⟩
    have hy' := List.mem_filter.mp hy
    have heq : y = x := List.inj_on_of_nodup_map hnd hy'.1 hx hyx
    rw [← heq]
    exact hy'.2
  · intro hp
    exact List.mem_map.mpr ⟨x, List.mem_filter.mpr ⟨hx, hp⟩, rfl⟩

/-- C9: expiry correctness.  With all per-booking transactions succeeding
and distinct row ids, `checkExpiredBookings` sets status = EXPIRED with a
`booking_expired` entry for exactly the PENDING bookings whose `expiresAt`
is strictly before now, leaves every other booking (future-dated PENDING or
non-PENDING) untouched, and returns the count of the expired ones. -/
theorem C9_expiry_correctness (now : Nat) (txOk : String → Bool)
    (db : List Booking)
    (htx : ∀ s, txOk s = true)
    (hnd : (db.map Booking.id).Nodup) :
    checkExpiredBookings now txOk db =
      { outcome := .ok,
        bookings := db.map (fun x =>
          if isExpiredPending now x then setExpired x else x),
        logs := (db.filter (isExpiredPending now)).map expiredEntry,
        count := some (db.filter (isExpiredPending now)).length } := by
  have h1 := sweepLoop_ok_append txOk (db.filter (isExpiredPending now)) db
    [] [] (fun b _ => htx b.id)
  rw [List.append_nil] at h1
  unfold checkExpiredBookings
  rw [h1]
  unfold sweepLoop
  dsimp only
  rw [foldl_updateById_setExpired, List.nil_append]
  refine congrArg (fun l => SweepResult.mk Outcome.ok l _ _) ?_
  exact List.map_congr_left fun x hx =>
    if_congr (mem_filter_ids_iff (isExpiredPending now) db hnd x hx) rfl rfl

/-- Witness for C9 on a concrete table at time 100: the two overdue
PENDING bookings are expired and counted, the future-dated PENDING booking
and the CONFIRMED booking are untouched. -/
theorem C9_witness :
    checkExpiredBookings 100 txOkAll [bkE1, bkE2, bkFuture, bkDone] =
      { outcome := .ok,
        bookings := [bkE1, bkE2, bkFuture, bkDone].map (fun x =>
          if isExpiredPending 100 x then setExpired x else x),
        logs := ([bkE1, bkE2, bkFuture, bkDone].filter
          (isExpiredPending 100)).map expiredEntry,
        count := some ([bkE1, bkE2, bkFuture, bkDone].filter
          (isExpiredPending 100)).length } :=
  C9_expiry_correctness 100 txOkAll [bkE1, bkE2, bkFuture, bkDone]
    (fun _ => rfl) (by decide)

/-- C3 counterexample: at time 100 both e1 and e2 are expired PENDING
bookings; e1's EXPIRED transaction fails, and the sweep leaves e2 — a
remaining booking of the batch — completely unprocessed (still PENDING, no
`booking_expired` entry) while the call raises.  So one bad record does
abort the batch, contrary to the claim. -/
theorem C3_counterexample :
    (checkExpiredBookings 100 txOkNotE1 [bkE1, bkE2]).outcome =
      Outcome.raised "expiry transition failed" ∧
    (checkExpiredBookings 100 txOkNotE1 [bkE1, bkE2]).bookings =
      [bkE1, bkE2] ∧
    (checkExpiredBookings 100 txOkNotE1 [bkE1, bkE2]).logs = [] ∧
    (checkExpiredBookings 100 txOkNotE1 [bkE1, bkE2]).count = none ∧
    isExpiredPending 100 bkE2 = true ∧
    bkE2.status = BookingStatus.PENDING := by
  decide

/-- C3 amended: `checkExpiredBookings` does NOT isolate per-booking
failures.  If the selected expired PENDING bookings are `pre ++ bad :: post`
in order, every transaction in `pre` succeeds and `bad`'s transaction
fails, then the sweep stops at `bad`: the bookings of `pre` are EXPIRED
with their `booking_expired` entries, `bad` and all of `post` are left
untouched, no count is returned, and the error propagates to the caller
(the batch is aborted). -/
theorem C3_amended_sweep_aborts_at_first_failure (now : Nat)
    (txOk : String → Bool) (db pre post : List Booking) (bad : Booking)
    (hsel : db.filter (isExpiredPending now) = pre ++ bad :: post)
    (hpre : ∀ b ∈ pre, txOk b.id = true)
    (hbad : txOk bad.id = false) :
    checkExpiredBookings now txOk db =
      { outcome := .raised "expiry transition failed",
        bookings := db.map (fun x =>
          if x.id ∈ pre.map Booking.id then setExpired x else x),
        logs := pre.map expiredEntry,
        count := none } := by
  unfold checkExpiredBookings
  rw [hsel, sweepLoop_ok_append txOk pre db [] (bad :: post) hpre]
  unfold sweepLoop
  rw [if_neg (by simp [hbad])]
  dsimp only
  rw [foldl_updateById_setExpired, List.nil_append]

/-- Witness for the amended C3 at the concrete two-booking table: e1 fails,
so e2 stays untouched and the sweep raises. -/
theorem C3_amended_witness :
    checkExpiredBookings 100 txOkNotE1 [bkE1, bkE2] =
      { outcome := .raised "expiry transition failed",
        bookings := [bkE1, bkE2].map (fun x =>
          if x.id ∈ ([] : List Booking).map Booking.id then setExpired x
          else x),
        logs := ([] : List Booking).map expiredEntry,
        count := none } :=
  C3_amended_sweep_aborts_at_first_failure 100 txOkNotE1 [bkE1, bkE2]
    [] [bkE2] bkE1 (by decide) (fun b hb => absurd hb (by simp)) (by decide)

/-- C8: the retry contract.  `retryFailedVerification` raises with no state
change when the booking is absent, when its status is not FAILED, or when
its stored txHash/chainId is missing (JS-falsy); otherwise it resets the
status to PENDING and synchronously runs `verifyPayment` on the stored
txHash/chainId (the reset booking being what that run loads), with the
retry call's outcome, final booking row and appended log entries exactly
those of that `verifyPayment` run — whatever it raises propagates. -/
theorem C8_retry_contract (env : VerifyEnv) (bid : String) :
    (env.booking = none →
       retryFailedVerification env bid =
         { outcome := .raised ("Booking " ++ bid ++ " not found"),
           booking := none, logs := [] }) ∧
    (∀ b, env.booking = some b → b.status ≠ BookingStatus.FAILED →
       retryFailedVerification env bid =
         { outcome := .raised ("Booking " ++ bid ++
             " is not in FAILED status"),
           booking := some b, logs := [] }) ∧
    (∀ b, env.booking = some b → b.status = BookingStatus.FAILED →
       (b.txHash = none ∨ b.txHash = some "" ∨ b.chainId = none ∨
        b.chainId = some 0) →
       retryFailedVerification env bid =
         { outcome := .raised ("Booking " ++ bid ++
             " is missing transaction details"),
           booking := some b, logs := [] }) ∧
    (∀ b txh cid, env.booking = some b → b.status = BookingStatus.FAILED →
       b.txHash = some txh → ¬ txh = "" → b.chainId = some cid →
       ¬ cid = 0 →
       retryFailedVerification env bid =
         { outcome :=
             (verifyPayment (withBooking env (resetToPending b))
               bid txh cid).outcome,
           booking :=
             (verifyPayment (withBooking env (resetToPending b))
               bid txh cid).booking,
           logs :=
             (verifyPayment (withBooking env (resetToPending b))
               bid txh cid).logs }) := by
  refine ⟨?_, ?_, ?_, ?_⟩
  · intro hb
    simp only [retryFailedVerification, hb]
  · intro b hb hs
    simp only [retryFailedVerification, hb, if_pos hs]
  · intro b hb hs hmiss
    simp only [retryFailedVerification, hb, if_neg (not_not_intro hs)]
    rcases hmiss with h | h | h | h
    · simp only [h]
    · cases hc : b.chainId <;> simp [h, hc]
    · cases ht : b.txHash <;> simp [ht, h]
    · cases ht : b.txHash <;> simp [ht, h]
  · intro b txh cid hb hs ht hte hc hce
    have hv : ∀ vr : VerifyResult,
        verifyPayment (withBooking env (resetToPending b)) bid txh cid = vr →
        retryFailedVerification env bid =
          { outcome := vr.outcome, booking := vr.booking,
            logs := vr.logs } := by
      intro vr hvr
      have hvr2 : verifyPayment { env with booking := some { b with status := BookingStatus.PENDING } } bid txh cid = vr := hvr
      rw [ht, hc] at hvr2
      simp only [retryFailedVerification, hb, if_neg (not_not_intro hs), ht,
        hc, if_neg (not_or.mpr ⟨hte, hce⟩), hvr2]
      cases hvo : vr.outcome <;> simp [hvo]
    rw [hv (verifyPayment (withBooking env (resetToPending b)) bid txh cid)
      rfl]

/-- Witness for C8 on the concrete FAILED booking: the guards pass, the
status is reset to PENDING, and the retry reports exactly what the inner
`verifyPayment` run reports. -/
theorem C8_witness :
    retryFailedVerification envC8 "BK-1" =
      { outcome :=
          (verifyPayment (withBooking envC8 (resetToPending bkFailed))
            "BK-1" "0xAA" 42161).outcome,
        booking :=
          (verifyPayment (withBooking envC8 (resetToPending bkFailed))
            "BK-1" "0xAA" 42161).booking,
        logs :=
          (verifyPayment (withBooking envC8 (resetToPending bkFailed))
            "BK-1" "0xAA" 42161).logs } :=
  (C8_retry_contract envC8 "BK-1").2.2.2 bkFailed "0xAA" 42161 rfl rfl rfl
    (by decide) rfl (by decide)

end DeDen
